import Mathlib

/-!
Shallow embedding of the session/room relay server
(src/Assets/Scripts/server.py, class RelayServer) of the
Ultimate-Car-Racing repository, together with proofs and refutations of
the frozen claims about it.

Python dictionaries are modelled as association lists in insertion
order: assignment to an existing key updates the entry in place,
assignment to a fresh key appends at the end, deletion removes the
entry.  Sockets are modelled by the identity of their owning client; an
outbound TCP send is an entry (recipient client id, message) in the
returned outbox, an outbound UDP send is an entry (recipient address,
payload).  Wall-clock times are abstract naturals supplied by the
caller.
-/

namespace UCR

/-- Dictionary lookup on an association list (first entry wins,
mirroring the unique-key discipline of a Python dict). -/
def lookupA {κ α : Type} [DecidableEq κ] : List (κ × α) → κ → Option α
  | [], _ => none
  | (k', v) :: rest, k => if k' = k then some v else lookupA rest k

/-- Dictionary assignment: update in place if the key is present,
append at the end otherwise (Python dict insertion-order semantics). -/
def upsert {κ α : Type} [DecidableEq κ] : List (κ × α) → κ → α → List (κ × α)
  | [], k, v => [(k, v)]
  | (k', v') :: rest, k, v =>
      if k' = k then (k, v) :: rest else (k', v') :: upsert rest k v

/-- Dictionary deletion of a key. -/
def eraseA {κ α : Type} [DecidableEq κ] (m : List (κ × α)) (k : κ) : List (κ × α) :=
  m.filter (fun p => p.1 != k)

/-- Little-endian decimal digits of a natural number, with explicit
structural fuel (the fuel argument only has to dominate the number). -/
def decDigitsAux : Nat → Nat → List Nat
  | _, 0 => []
  | 0, _ + 1 => []
  | fuel + 1, n + 1 => ((n + 1) % 10) :: decDigitsAux fuel ((n + 1) / 10)

/-- Little-endian decimal digits of a natural number. -/
def decDigits (n : Nat) : List Nat := decDigitsAux n n

/-- Recombine little-endian decimal digits into a natural number. -/
def ofDecDigits : List Nat → Nat
  | [] => 0
  | d :: ds => d + 10 * ofDecDigits ds

/-- Decimal rendering of a natural number, as Python string formatting
produces it for the positive counter values the server formats (the
two id counters start at 1, so the value 0 is never rendered). -/
def natToString (n : Nat) : String :=
  ((decDigits n).reverse.map Nat.digitChar).asString

/-- The client id string allocated for counter value n
(Python: f-string client underscore next client id). -/
def clientIdOf (n : Nat) : String := "client_" ++ natToString n

/-- The room id string allocated when n-1 rooms currently exist
(Python: f-string room underscore len plus one). -/
def roomIdOf (n : Nat) : String := "room_" ++ natToString n

/-- One registered client session: the client-dict value of server.py
(tcp socket handle elided; udp ip and udp port, which are added
together lazily, are one optional pair). -/
structure Client where
  publicIp : String
  publicPort : Nat
  lastHeartbeat : Nat
  udpAddr : Option (String × Nat)
  deriving DecidableEq, Repr

/-- One game room: the room-dict value of server.py.  The key
game_started is never written anywhere in server.py and is read
elsewhere with default False; the optional field with value none models
the absent key. -/
structure Room where
  hostId : String
  name : String
  players : List String
  maxPlayers : Nat
  gameStarted : Option Bool
  deriving DecidableEq, Repr

/-- A stored player position (player_positions dict value). -/
structure PlayerPos where
  x : Rat
  y : Rat
  z : Rat
  timestamp : Nat
  deriving DecidableEq, Repr

/-- The spawn-position record returned by assign_spawn_position. -/
structure SpawnPos where
  x : Rat
  y : Rat
  z : Rat
  index : Nat
  deriving DecidableEq, Repr

/-- TCP messages the modelled handlers emit. -/
inductive Msg where
  | registered (clientId : String) (publicIp : String) (publicPort : Nat)
  | heartbeatAck
  | gameHosted (roomId : String)
  | joinFailed (reason : String)
  | playerJoined (clientId : String)
  | joinedGame (roomId : String) (hostId : String)
  | gameStarted (playerIds : List String) (spawnPosition : SpawnPos)
  | relay (fromId : String) (message : String)
  deriving DecidableEq, Repr

/-- A decoded UDP datagram: the fields handle_udp_message reads, each
optional because message.get returns None for an absent key.  The
position field stands for a well-formed position dict (a missing,
non-dict or empty position is none); the data field is the opaque
payload. -/
structure UdpDatagram where
  msgType : Option String
  clientId : Option String
  targetId : Option String
  roomId : Option String
  data : Option String
  position : Option (Rat × Rat × Rat)
  deriving DecidableEq, Repr

/-- The payload the server forwards over UDP
(dict with keys type, from, data). -/
structure UdpForward where
  msgType : String
  fromId : String
  data : Option String
  deriving DecidableEq, Repr

/-- The mutable state of RelayServer relevant to the claims:
clients, game_rooms, next_client_id, player_positions and
room_spawn_positions (player_latencies and player_names play no role in
any claim and are omitted). -/
structure ServerState where
  clients : List (String × Client)
  gameRooms : List (String × Room)
  nextClientId : Nat
  playerPositions : List (String × PlayerPos)
  roomSpawnPositions : List (String × List (Nat × String))
  deriving DecidableEq, Repr

/-- Python truthiness of an optional string (None and the empty string
are falsy). -/
def truthy : Option String → Bool
  | none => false
  | some s => s != ""

/-- The 20 track-aligned garage positions of assign_spawn_position
(server.py, track_positions). -/
def trackPositions : List (Rat × Rat × Rat) :=
  [(66, -2, 0.8), (60, -2, 0.8), (54, -2, 0.8), (47, -2, 0.8),
   (41, -2, 0.8), (35, -2, 0.8), (28, -2, 0.8), (22, -2, 0.8),
   (16, -2, 0.8), (9, -2, 0.8), (3, -2, 0.8), (-3, -2, 0.8),
   (-9, -2, 0.8), (-15, -2, 0.8), (-22, -2, 0.8), (-28, -2, 0.8),
   (-34, -2, 0.8), (-41, -2, 0.8), (-47, -2, 0.8), (-54, -2, 0.8)]

/-- The scan loop of assign_spawn_position: starting from index i,
advance while the index is occupied and below the table length
(Python: while position_index in occupied_positions and
position_index lt len of track_positions). -/
def findFree (occ : List (Nat × String)) (i : Nat) : Nat :=
  if h : (lookupA occ i).isSome = true ∧ i < trackPositions.length then
    findFree occ (i + 1)
  else i
termination_by trackPositions.length - i
decreasing_by
  have := h.2
  omega

/-- server.py assign_spawn_position: find the first unoccupied spawn
index of the room, falling back to index 0 when the whole table is
occupied, record the occupant, and return the coordinates with the
index. -/
def assign_spawn_position (s : ServerState) (roomId clientId : String) :
    ServerState × SpawnPos :=
  let occupied := (lookupA s.roomSpawnPositions roomId).getD []
  let scanned := findFree occupied 0
  let idx := if scanned ≥ trackPositions.length then 0 else scanned
  let occupied' := upsert occupied idx clientId
  let s' := { s with roomSpawnPositions := upsert s.roomSpawnPositions roomId occupied' }
  let p := trackPositions.getD idx (0, 0, 0)
  (s', { x := p.1, y := p.2.1, z := p.2.2, index := idx })

/-- server.py release_spawn_position: delete every slot entry of the
room held by the client. -/
def release_spawn_position (s : ServerState) (roomId clientId : String) : ServerState :=
  match lookupA s.roomSpawnPositions roomId with
  | some positions =>
      { s with roomSpawnPositions :=
          upsert s.roomSpawnPositions roomId (positions.filter (fun p => p.2 != clientId)) }
  | none => s

/-- server.py register_client: allocate the next client id from the
monotonic counter, store the session, and send the REGISTERED ack to
the new client. -/
def register_client (s : ServerState) (addr : String × Nat) (now : Nat) :
    ServerState × String × List (String × Msg) :=
  let cid := clientIdOf s.nextClientId
  let s' := { s with
      nextClientId := s.nextClientId + 1,
      clients := upsert s.clients cid
        ({ publicIp := addr.1, publicPort := addr.2, lastHeartbeat := now, udpAddr := none }) }
  (s', cid, [(cid, Msg.registered cid addr.1 addr.2)])

/-- The existing-room scan of the HOST_GAME branch: the first room (in
dict order) whose host_id is the client. -/
def findHosted : List (String × Room) → String → Option String
  | [], _ => none
  | (rid, r) :: rest, cid => if r.hostId = cid then some rid else findHosted rest cid

/-- The HOST_GAME branch of server.py handle_tcp_message: reuse the
room the client already hosts, otherwise create a room named after the
current room count, with the client as sole member and host; in either
case acknowledge with GAME_HOSTED if the client is registered. -/
def handleHostGame (s : ServerState) (clientId : String)
    (roomName : Option String) (maxPlayers : Option Nat) :
    ServerState × List (String × Msg) :=
  let name := roomName.getD "Game Room"
  let maxP := maxPlayers.getD 4
  match findHosted s.gameRooms clientId with
  | some rid =>
      (s, if (lookupA s.clients clientId).isSome
          then [(clientId, Msg.gameHosted rid)] else [])
  | none =>
      let rid := roomIdOf (s.gameRooms.length + 1)
      let s' := { s with gameRooms := (upsert s.gameRooms rid
          { hostId := clientId, name := name, players := [clientId],
            maxPlayers := maxP, gameStarted := none }) }
      (s', if (lookupA s'.clients clientId).isSome
           then [(clientId, Msg.gameHosted rid)] else [])

/-- The JOIN_GAME branch of server.py handle_tcp_message. -/
def handleJoinGame (s : ServerState) (clientId : String) (roomId : Option String) :
    ServerState × List (String × Msg) :=
  let notFound : ServerState × List (String × Msg) :=
    (s, if (lookupA s.clients clientId).isSome
        then [(clientId, Msg.joinFailed "Room not found")] else [])
  match roomId with
  | some rid =>
      match lookupA s.gameRooms rid with
      | some room =>
          if room.players.length ≥ room.maxPlayers then
            (s, if (lookupA s.clients clientId).isSome
                then [(clientId, Msg.joinFailed "Room is full")] else [])
          else
            let room' := if clientId ∈ room.players then room
                         else { room with players := room.players ++ [clientId] }
            let s' := { s with gameRooms := upsert s.gameRooms rid room' }
            (s', if (lookupA s.clients room.hostId).isSome
                    && (lookupA s.clients clientId).isSome
                 then [(room.hostId, Msg.playerJoined clientId),
                       (clientId, Msg.joinedGame rid room.hostId)]
                 else [])
      | none => notFound
  | none => notFound

/-- The LEAVE_ROOM branch of server.py handle_tcp_message: drop the
client from the member list and delete the room when it became empty or
the host left.  The branch sends nothing and does not touch
room_spawn_positions. -/
def handleLeaveRoom (s : ServerState) (clientId : String) (roomId : Option String) :
    ServerState × List (String × Msg) :=
  match roomId with
  | some rid =>
      match lookupA s.gameRooms rid with
      | some room =>
          if clientId ∈ room.players then
            let players' := room.players.erase clientId
            if players'.length = 0 ∨ room.hostId = clientId then
              ({ s with gameRooms := eraseA s.gameRooms rid }, [])
            else
              ({ s with gameRooms := upsert s.gameRooms rid ({ room with players := players' }) }, [])
          else (s, [])
      | none => (s, [])
  | none => (s, [])

/-- The member loop of the START_GAME branch: for each member that is
a registered client, assign a spawn position (threading the state) and
send GAME_STARTED with the full member list and that member's own
spawn position. -/
def startGameLoop (roomId : String) (allIds : List String) :
    ServerState → List String → ServerState × List (String × Msg)
  | s, [] => (s, [])
  | s, pid :: rest =>
      if (lookupA s.clients pid).isSome then
        let r1 := assign_spawn_position s roomId pid
        let r2 := startGameLoop roomId allIds r1.1 rest
        (r2.1, (pid, Msg.gameStarted allIds r1.2) :: r2.2)
      else startGameLoop roomId allIds s rest

/-- The START_GAME branch of server.py handle_tcp_message: silently
ignored unless the caller is the room's host; otherwise run the member
loop.  Nothing is ever written to the room itself. -/
def handleStartGame (s : ServerState) (clientId : String) (roomId : Option String) :
    ServerState × List (String × Msg) :=
  match roomId with
  | some rid =>
      match lookupA s.gameRooms rid with
      | some room =>
          if room.hostId ≠ clientId then (s, [])
          else startGameLoop rid room.players s room.players
      | none => (s, [])
  | none => (s, [])

/-- The RELAY_MESSAGE branch of server.py handle_tcp_message: with a
truthy target_id, forward to exactly that client (the sender included);
otherwise with a truthy room_id, forward to every registered member of
the room except the sender. -/
def handleRelayMessage (s : ServerState) (clientId : String)
    (roomId targetId message : Option String) :
    ServerState × List (String × Msg) :=
  if truthy message = false then (s, []) else
  if truthy targetId then
    let tid := targetId.getD ""
    match lookupA s.clients tid with
    | some _ => (s, [(tid, Msg.relay clientId (message.getD ""))])
    | none => (s, [])
  else if truthy roomId then
    match lookupA s.gameRooms (roomId.getD "") with
    | some room =>
        (s, room.players.filterMap (fun pid =>
          if pid != clientId && (lookupA s.clients pid).isSome
          then some (pid, Msg.relay clientId (message.getD "")) else none))
    | none => (s, [])
  else (s, [])

/-- server.py handle_udp_message: drop a datagram without a truthy
client_id; record the sender's UDP endpoint and heartbeat when the
sender is registered; store a POSITION_UPDATE position; then forward
the payload to a truthy target_id (if that client has a known UDP
endpoint), or to every other registered member of a truthy room_id
with a known UDP endpoint. -/
def handle_udp_message (s : ServerState) (m : UdpDatagram)
    (addr : String × Nat) (now : Nat) :
    ServerState × List ((String × Nat) × UdpForward) :=
  if truthy m.clientId = false then (s, []) else
  let cid := m.clientId.getD ""
  let s1 := match lookupA s.clients cid with
    | some c => { s with clients := (upsert s.clients cid
        { c with udpAddr := some addr, lastHeartbeat := now }) }
    | none => s
  let s2 :=
    if m.msgType = some "POSITION_UPDATE" then
      match m.position with
      | some p => { s1 with playerPositions := (upsert s1.playerPositions cid
          { x := p.1, y := p.2.1, z := p.2.2, timestamp := now }) }
      | none => s1
    else s1
  if truthy m.targetId then
    match lookupA s2.clients (m.targetId.getD "") with
    | some c =>
        match c.udpAddr with
        | some ta => (s2, [(ta, { msgType := "GAME_DATA", fromId := cid, data := m.data })])
        | none => (s2, [])
    | none => (s2, [])
  else if truthy m.roomId then
    match lookupA s2.gameRooms (m.roomId.getD "") with
    | some room =>
        let actives := room.players.filter (fun pid => (lookupA s2.clients pid).isSome)
        (s2, actives.filterMap (fun pid =>
          if pid != cid then
            match lookupA s2.clients pid with
            | some c =>
                match c.udpAddr with
                | some ta => some (ta, { msgType := "GAME_DATA", fromId := cid, data := m.data })
                | none => none
            | none => none
          else none))
    | none => (s2, [])
  else (s2, [])

/-! Association-list laws. -/

theorem lookupA_upsert_self {κ α : Type} [DecidableEq κ] (m : List (κ × α)) (k : κ) (v : α) :
    lookupA (upsert m k v) k = some v := by
  induction m with
  | nil => simp [upsert, lookupA]
  | cons p rest ih =>
      by_cases h : p.1 = k
      · simp [upsert, lookupA, h]
      · simp [upsert, lookupA, h, ih]

theorem lookupA_upsert_ne {κ α : Type} [DecidableEq κ] (m : List (κ × α)) (k k' : κ) (v : α)
    (h : k' ≠ k) : lookupA (upsert m k v) k' = lookupA m k' := by
  have h' : ¬k = k' := fun e => h e.symm
  induction m with
  | nil => simp [upsert, lookupA, h']
  | cons p rest ih =>
      by_cases hk : p.1 = k
      · simp [upsert, lookupA, hk, h']
      · simp [upsert, lookupA, hk, ih]

theorem upsert_of_lookupA_none {κ α : Type} [DecidableEq κ] (m : List (κ × α)) (k : κ) (v : α)
    (h : lookupA m k = none) : upsert m k v = m ++ [(k, v)] := by
  induction m with
  | nil => simp [upsert]
  | cons p rest ih =>
      by_cases hk : p.1 = k
      · simp [lookupA, hk] at h
      · simp [lookupA, hk] at h
        simp [upsert, hk, ih h]

theorem lookupA_eraseA_self {κ α : Type} [DecidableEq κ] (m : List (κ × α)) (k : κ) :
    lookupA (eraseA m k) k = none := by
  induction m with
  | nil => rfl
  | cons p rest ih =>
      simp only [eraseA] at ih ⊢
      by_cases hk : p.1 = k
      · simpa [List.filter_cons, hk] using ih
      · simp [List.filter_cons, hk, lookupA, ih]

/-! Decimal rendering is injective (so the id counters never repeat a
rendered id). -/

theorem ofDecDigits_decDigitsAux :
    ∀ fuel n : Nat, n ≤ fuel → ofDecDigits (decDigitsAux fuel n) = n
  | _, 0, _ => by simp [decDigitsAux, ofDecDigits]
  | 0, n + 1, h => by omega
  | fuel + 1, n + 1, h => by
      have hdiv : (n + 1) / 10 ≤ fuel := by
        have := Nat.div_lt_self (Nat.succ_pos n) (by norm_num : 1 < 10)
        omega
      simp only [decDigitsAux, ofDecDigits, ofDecDigits_decDigitsAux fuel ((n + 1) / 10) hdiv]
      omega

theorem ofDecDigits_decDigits (n : Nat) : ofDecDigits (decDigits n) = n :=
  ofDecDigits_decDigitsAux n n le_rfl

theorem decDigitsAux_lt_ten :
    ∀ fuel n d : Nat, d ∈ decDigitsAux fuel n → d < 10
  | _, 0, d, h => by simp [decDigitsAux] at h
  | 0, _ + 1, d, h => by simp [decDigitsAux] at h
  | fuel + 1, n + 1, d, h => by
      simp only [decDigitsAux, List.mem_cons] at h
      rcases h with h | h
      · exact h ▸ Nat.mod_lt _ (by norm_num)
      · exact decDigitsAux_lt_ten fuel ((n + 1) / 10) d h

theorem decDigits_lt_ten (n d : Nat) (h : d ∈ decDigits n) : d < 10 :=
  decDigitsAux_lt_ten n n d h

theorem digitChar_inj_lt :
    ∀ a, a < 10 → ∀ b, b < 10 → Nat.digitChar a = Nat.digitChar b → a = b := by decide

theorem map_digitChar_inj :
    ∀ l₁ l₂ : List Nat, (∀ d ∈ l₁, d < 10) → (∀ d ∈ l₂, d < 10) →
      l₁.map Nat.digitChar = l₂.map Nat.digitChar → l₁ = l₂
  | [], [], _, _, _ => rfl
  | [], _ :: _, _, _, h => by simp at h
  | _ :: _, [], _, _, h => by simp at h
  | a :: l₁, b :: l₂, h₁, h₂, h => by
      simp only [List.map_cons, List.cons.injEq] at h
      have hd := digitChar_inj_lt a (h₁ a (List.mem_cons_self a l₁)) b
        (h₂ b (List.mem_cons_self b l₂)) h.1
      have ht := map_digitChar_inj l₁ l₂ (fun d hd => h₁ d (List.mem_cons_of_mem a hd))
        (fun d hd => h₂ d (List.mem_cons_of_mem b hd)) h.2
      rw [hd, ht]

theorem natToString_injective : Function.Injective natToString := by
  intro a b h
  have hmaps : (decDigits a).reverse.map Nat.digitChar
      = (decDigits b).reverse.map Nat.digitChar := congrArg String.data h
  have hrev : (decDigits a).reverse = (decDigits b).reverse :=
    map_digitChar_inj _ _
      (fun d hd => decDigits_lt_ten a d (List.mem_reverse.mp hd))
      (fun d hd => decDigits_lt_ten b d (List.mem_reverse.mp hd)) hmaps
  have hdig : decDigits a = decDigits b := List.reverse_injective hrev
  have := congrArg ofDecDigits hdig
  rwa [ofDecDigits_decDigits, ofDecDigits_decDigits] at this

theorem clientIdOf_injective : Function.Injective clientIdOf := by
  intro a b h
  have hdata : ("client_".data ++ (natToString a).data)
      = ("client_".data ++ (natToString b).data) := congrArg String.data h
  have : (natToString a).data = (natToString b).data := List.append_cancel_left hdata
  exact natToString_injective (by
    cases hsa : natToString a
    cases hsb : natToString b
    simp [hsa, hsb] at this
    simp [this])

/-! Laws of the spawn-scan loop. -/

theorem findFree_min (occ : List (Nat × String)) (i j : Nat) (h1 : i ≤ j)
    (h2 : j < findFree occ i) : (lookupA occ j).isSome = true := by
  rw [findFree] at h2
  by_cases hc : (lookupA occ i).isSome = true ∧ i < trackPositions.length
  · rw [dif_pos hc] at h2
    rcases Nat.eq_or_lt_of_le h1 with rfl | hlt
    · exact hc.1
    · exact findFree_min occ (i + 1) j hlt h2
  · rw [dif_neg hc] at h2
    omega
termination_by trackPositions.length - i
decreasing_by
  have := hc.2
  omega

theorem findFree_term (occ : List (Nat × String)) (i : Nat) :
    ¬((lookupA occ (findFree occ i)).isSome = true
      ∧ findFree occ i < trackPositions.length) := by
  rw [findFree]
  by_cases hc : (lookupA occ i).isSome = true ∧ i < trackPositions.length
  · rw [dif_pos hc]
    exact findFree_term occ (i + 1)
  · rw [dif_neg hc]
    exact hc
termination_by trackPositions.length - i
decreasing_by
  have := hc.2
  omega

theorem findFree_le (occ : List (Nat × String)) (i : Nat)
    (h : i ≤ trackPositions.length) : findFree occ i ≤ trackPositions.length := by
  rw [findFree]
  by_cases hc : (lookupA occ i).isSome = true ∧ i < trackPositions.length
  · rw [dif_pos hc]
    exact findFree_le occ (i + 1) hc.2
  · rw [dif_neg hc]
    exact h
termination_by trackPositions.length - i
decreasing_by
  have := hc.2
  omega

/-! Laws of the hosted-room scan. -/

theorem findHosted_eq_none (rooms : List (String × Room)) (cid : String)
    (h : ∀ p ∈ rooms, p.2.hostId ≠ cid) : findHosted rooms cid = none := by
  induction rooms with
  | nil => rfl
  | cons p rest ih =>
      have hp : p.2.hostId ≠ cid := h p (List.mem_cons_self p rest)
      cases p with
      | mk rid r =>
          simp only [findHosted, if_neg hp]
          exact ih (fun q hq => h q (List.mem_cons_of_mem _ hq))

theorem findHosted_append_last (rooms : List (String × Room)) (cid rid : String) (room : Room)
    (h : ∀ p ∈ rooms, p.2.hostId ≠ cid) (hroom : room.hostId = cid) :
    findHosted (rooms ++ [(rid, room)]) cid = some rid := by
  induction rooms with
  | nil => simp [findHosted, hroom]
  | cons p rest ih =>
      have hp : p.2.hostId ≠ cid := h p (List.mem_cons_self p rest)
      cases p with
      | mk rid' r =>
          simp only [List.cons_append, findHosted, if_neg hp]
          exact ih (fun q hq => h q (List.mem_cons_of_mem _ hq))

/-! Claim theorems.  Concrete states used by witnesses and
counterexamples are built from this throwaway session record. -/

/-- A registered client record for concrete test states. -/
def probeClient : Client :=
  { publicIp := "127.0.0.1", publicPort := 1, lastHeartbeat := 0, udpAddr := none }

/-- A two-member room hosted by client_1 (capacity 4). -/
def duoRoom : Room :=
  { hostId := "client_1", name := "R", players := ["client_1", "client_2"],
    maxPlayers := 4, gameStarted := none }

/-- Three registered clients, client_1 hosting duoRoom as room_1. -/
def trioState : ServerState :=
  { clients := [("client_1", probeClient), ("client_2", probeClient),
      ("client_3", probeClient)],
    gameRooms := [("room_1", duoRoom)],
    nextClientId := 4, playerPositions := [], roomSpawnPositions := [] }

/-- A single-member room already at its capacity of 1. -/
def fullRoom : Room :=
  { hostId := "client_1", name := "R", players := ["client_1"],
    maxPlayers := 1, gameStarted := none }

/-- Two registered clients, client_1 hosting the full room room_1. -/
def fullState : ServerState :=
  { clients := [("client_1", probeClient), ("client_2", probeClient)],
    gameRooms := [("room_1", fullRoom)],
    nextClientId := 3, playerPositions := [], roomSpawnPositions := [] }

/-- A two-member capacity-2 room hosted by client_1. -/
def pairRoom : Room :=
  { hostId := "client_1", name := "R", players := ["client_1", "client_2"],
    maxPlayers := 2, gameStarted := none }

/-- Two registered clients in pairRoom, with spawn slots 0 and 1
already assigned to them in room_1. -/
def spawnedState : ServerState :=
  { clients := [("client_1", probeClient), ("client_2", probeClient)],
    gameRooms := [("room_1", pairRoom)],
    nextClientId := 3, playerPositions := [],
    roomSpawnPositions := [("room_1", [(0, "client_1"), (1, "client_2")])] }

/-- Claim C9: a HOST_GAME that creates a new room defaults a missing
room_name to Game Room and a missing max_players to 4. -/
theorem host_game_defaults (s : ServerState) (cid : String)
    (hnone : ∀ p ∈ s.gameRooms, p.2.hostId ≠ cid) :
    lookupA (handleHostGame s cid none none).1.gameRooms
        (roomIdOf (s.gameRooms.length + 1))
      = some { hostId := cid, name := "Game Room", players := [cid],
               maxPlayers := 4, gameStarted := none } := by
  simp only [handleHostGame, findHosted_eq_none s.gameRooms cid hnone, Option.getD_none]
  exact lookupA_upsert_self ..

/-- Witness for C9: client_3 (hosting nothing in trioState) hosts with
both fields missing and gets a room named Game Room with capacity 4. -/
theorem host_game_defaults_witness :
    lookupA (handleHostGame trioState "client_3" none none).1.gameRooms (roomIdOf 2)
      = some { hostId := "client_3", name := "Game Room", players := ["client_3"],
               maxPlayers := 4, gameStarted := none } :=
  host_game_defaults trioState "client_3" (by decide)

/-- Claim C1: a JOIN_GAME on a room already at max_players answers the
registered joiner with JOIN_FAILED reason Room is full and leaves the
whole state (in particular every member list) unchanged, and a
JOIN_GAME naming an unknown room id answers JOIN_FAILED reason Room not
found and changes nothing. -/
theorem join_game_full_or_unknown (s : ServerState) (cid rid : String)
    (hreg : (lookupA s.clients cid).isSome = true) :
    (∀ room, lookupA s.gameRooms rid = some room →
        room.players.length ≥ room.maxPlayers →
        handleJoinGame s cid (some rid) = (s, [(cid, Msg.joinFailed "Room is full")]))
    ∧ (lookupA s.gameRooms rid = none →
        handleJoinGame s cid (some rid)
          = (s, [(cid, Msg.joinFailed "Room not found")])) := by
  constructor
  · intro room hroom hfull
    simp [handleJoinGame, hroom, hfull, hreg]
  · intro hnone
    simp [handleJoinGame, hnone, hreg]

/-- Witness for C1: in fullState, client_2 joining the full room_1 is
refused with Room is full and the state is unchanged; joining the
absent room_9 is refused with Room not found. -/
theorem join_game_full_or_unknown_witness :
    handleJoinGame fullState "client_2" (some "room_1")
      = (fullState, [("client_2", Msg.joinFailed "Room is full")])
    ∧ handleJoinGame fullState "client_2" (some "room_9")
      = (fullState, [("client_2", Msg.joinFailed "Room not found")]) :=
  ⟨(join_game_full_or_unknown fullState "client_2" "room_1" (by decide)).1
      fullRoom (by decide) (by decide),
   (join_game_full_or_unknown fullState "client_2" "room_9" (by decide)).2 (by decide)⟩

/-- Counterexample for C7: in trioState the room members are client_1
(the host) and client_2; a successful join by client_3 sends messages
only to the host and the joiner, so the existing non-host member
client_2 receives nothing, although the claim says every existing
member other than the joiner is sent PLAYER_JOINED. -/
theorem join_game_member_unnotified :
    "client_2" ∈ duoRoom.players
    ∧ (handleJoinGame trioState "client_3" (some "room_1")).2.map Prod.fst
        = ["client_1", "client_3"]
    ∧ "client_2" ∉ ((handleJoinGame trioState "client_3" (some "room_1")).2.map
        Prod.fst) := by decide

/-- Amended C7: on a successful JOIN_GAME (room exists, below
capacity, host and joiner registered) exactly two messages are sent:
PLAYER_JOINED to the room's host and JOINED_GAME to the joiner; no
other member is notified. -/
theorem join_game_notifies_host_only (s : ServerState) (cid rid : String) (room : Room)
    (hroom : lookupA s.gameRooms rid = some room)
    (hcap : room.players.length < room.maxPlayers)
    (hhost : (lookupA s.clients room.hostId).isSome = true)
    (hreg : (lookupA s.clients cid).isSome = true) :
    (handleJoinGame s cid (some rid)).2
      = [(room.hostId, Msg.playerJoined cid), (cid, Msg.joinedGame rid room.hostId)] := by
  simp [handleJoinGame, hroom, Nat.not_le.mpr hcap, hhost, hreg]

/-- Witness for amended C7: client_3 joining room_1 in trioState
produces exactly the host notification and the joiner
acknowledgement. -/
theorem join_game_notifies_host_only_witness :
    (handleJoinGame trioState "client_3" (some "room_1")).2
      = [("client_1", Msg.playerJoined "client_3"),
         ("client_3", Msg.joinedGame "room_1" "client_1")] :=
  join_game_notifies_host_only trioState "client_3" "room_1" duoRoom
    (by decide) (by decide) (by decide) (by decide)

/-- Counterexample for C6: when the host client_1 leaves room_1 of
spawnedState while client_2 is still a member, the room is deleted, yet
no message is sent to the remaining member and the room's spawn
assignment survives in room_spawn_positions, although the claim says
remaining members are notified and the spawn assignment is deleted with
the room. -/
theorem leave_room_silent_and_spawn_kept :
    (handleLeaveRoom spawnedState "client_1" (some "room_1")).2 = []
    ∧ lookupA (handleLeaveRoom spawnedState "client_1"
        (some "room_1")).1.gameRooms "room_1" = none
    ∧ lookupA (handleLeaveRoom spawnedState "client_1"
        (some "room_1")).1.roomSpawnPositions "room_1"
      = some [(0, "client_1"), (1, "client_2")] := by decide

/-- Amended C6: LEAVE_ROOM by a member removes the client from the
member list and deletes the room exactly when the client was the host
or the membership became empty; it sends no message and leaves
room_spawn_positions (and the client map) untouched. -/
theorem leave_room_behaviour (s : ServerState) (cid rid : String) (room : Room)
    (hroom : lookupA s.gameRooms rid = some room)
    (hmem : cid ∈ room.players) :
    (handleLeaveRoom s cid (some rid)).2 = []
    ∧ (handleLeaveRoom s cid (some rid)).1.roomSpawnPositions = s.roomSpawnPositions
    ∧ (handleLeaveRoom s cid (some rid)).1.clients = s.clients
    ∧ ((room.players.erase cid).length = 0 ∨ room.hostId = cid →
        lookupA (handleLeaveRoom s cid (some rid)).1.gameRooms rid = none)
    ∧ (¬((room.players.erase cid).length = 0 ∨ room.hostId = cid) →
        lookupA (handleLeaveRoom s cid (some rid)).1.gameRooms rid
          = some { room with players := room.players.erase cid }) := by
  by_cases hdel : (room.players.erase cid).length = 0 ∨ room.hostId = cid
  · have hres : handleLeaveRoom s cid (some rid)
        = ({ s with gameRooms := eraseA s.gameRooms rid }, []) := by
      simp only [handleLeaveRoom, hroom, if_pos hmem, if_pos hdel]
    refine ⟨by rw [hres], by rw [hres], by rw [hres],
      fun _ => by rw [hres]; exact lookupA_eraseA_self .., fun hcon => absurd hdel hcon⟩
  · have hres : handleLeaveRoom s cid (some rid)
        = ({ s with gameRooms := (upsert s.gameRooms rid
             { room with players := room.players.erase cid }) }, []) := by
      simp only [handleLeaveRoom, hroom, if_pos hmem, if_neg hdel]
    refine ⟨by rw [hres], by rw [hres], by rw [hres],
      fun hcon => absurd hcon hdel,
      fun _ => by rw [hres]; exact lookupA_upsert_self ..⟩

/-- Witness for amended C6: the non-host member client_2 leaving
room_1 of spawnedState shrinks the member list to the host alone,
deletes nothing else, and sends nothing. -/
theorem leave_room_behaviour_witness :
    (handleLeaveRoom spawnedState "client_2" (some "room_1")).2 = []
    ∧ lookupA (handleLeaveRoom spawnedState "client_2"
        (some "room_1")).1.gameRooms "room_1"
      = some { hostId := "client_1", name := "R", players := ["client_1"],
               maxPlayers := 2, gameStarted := none } := by
  have h := leave_room_behaviour spawnedState "client_2" "room_1" pairRoom
    (by decide) (by decide)
  exact ⟨h.1, by simpa using h.2.2.2.2 (by decide)⟩

/-- Claim C5: a HOST_GAME from a registered client hosting no room
(given that the derived id room count plus one is not already taken)
appends exactly one new room with that client as sole member and host
and acknowledges with GAME_HOSTED; a second HOST_GAME by the same
client then returns the same room id and changes nothing. -/
theorem host_game_idempotent (s : ServerState) (cid : String)
    (n1 n2 : Option String) (m1 m2 : Option Nat)
    (hreg : (lookupA s.clients cid).isSome = true)
    (hnohost : ∀ p ∈ s.gameRooms, p.2.hostId ≠ cid)
    (hfresh : lookupA s.gameRooms (roomIdOf (s.gameRooms.length + 1)) = none) :
    handleHostGame s cid n1 m1
      = ({ s with gameRooms := (s.gameRooms ++ [(roomIdOf (s.gameRooms.length + 1),
            { hostId := cid, name := n1.getD "Game Room", players := [cid],
              maxPlayers := m1.getD 4, gameStarted := none })]) },
         [(cid, Msg.gameHosted (roomIdOf (s.gameRooms.length + 1)))])
    ∧ handleHostGame (handleHostGame s cid n1 m1).1 cid n2 m2
      = ((handleHostGame s cid n1 m1).1,
         [(cid, Msg.gameHosted (roomIdOf (s.gameRooms.length + 1)))]) := by
  have h1 : findHosted s.gameRooms cid = none := findHosted_eq_none _ _ hnohost
  have hfirst : handleHostGame s cid n1 m1
      = ({ s with gameRooms := (s.gameRooms ++ [(roomIdOf (s.gameRooms.length + 1),
            { hostId := cid, name := n1.getD "Game Room", players := [cid],
              maxPlayers := m1.getD 4, gameStarted := none })]) },
         [(cid, Msg.gameHosted (roomIdOf (s.gameRooms.length + 1)))]) := by
    simp only [handleHostGame, h1]
    rw [upsert_of_lookupA_none _ _ _ hfresh]
    simp [hreg]
  refine ⟨hfirst, ?_⟩
  rw [hfirst]
  have h2 : findHosted (s.gameRooms ++ [(roomIdOf (s.gameRooms.length + 1),
      { hostId := cid, name := n1.getD "Game Room", players := [cid],
        maxPlayers := m1.getD 4, gameStarted := none })]) cid
      = some (roomIdOf (s.gameRooms.length + 1)) :=
    findHosted_append_last _ _ _ _ hnohost rfl
  simp [handleHostGame, h2, hreg]

/-- Witness for C5: client_3 (hosting nothing in trioState) hosts room
X of capacity 8, getting room_2; hosting again returns room_2 and
leaves the state unchanged. -/
theorem host_game_idempotent_witness :
    handleHostGame trioState "client_3" (some "X") (some 8)
      = ({ trioState with gameRooms := (trioState.gameRooms ++ [(roomIdOf 2,
            { hostId := "client_3", name := "X", players := ["client_3"],
              maxPlayers := 8, gameStarted := none })]) },
         [("client_3", Msg.gameHosted (roomIdOf 2))])
    ∧ handleHostGame (handleHostGame trioState "client_3" (some "X") (some 8)).1
          "client_3" none none
      = ((handleHostGame trioState "client_3" (some "X") (some 8)).1,
         [("client_3", Msg.gameHosted (roomIdOf 2))]) := by
  have h := host_game_idempotent trioState "client_3" (some "X") none (some 8) none
    (by decide) (by decide) (by decide)
  exact ⟨h.1, h.2⟩

/-- Counterexample for C4: starting from trioState (one room room_1
hosted by client_1): client_2 hosts and is allocated room_2; after
client_1 leaves (deleting room_1) the room count is back to 1, so a
HOST_GAME by client_3 is allocated room_2 again - an id already
allocated earlier in the same process lifetime, and one still in use,
so the existing room_2 is even overwritten. -/
theorem room_id_reused :
    (handleHostGame trioState "client_2" none none).2
      = [("client_2", Msg.gameHosted "room_2")]
    ∧ lookupA (handleLeaveRoom (handleHostGame trioState "client_2" none none).1
          "client_1" (some "room_1")).1.gameRooms "room_2" ≠ none
    ∧ (handleHostGame (handleLeaveRoom (handleHostGame trioState "client_2" none none).1
          "client_1" (some "room_1")).1 "client_3" none none).2
      = [("client_3", Msg.gameHosted "room_2")] := by decide

/-- Amended C4: client ids are indeed never reused - register_client
returns the rendering of the monotonic counter, increments the counter,
and the returned id differs from the id of every earlier counter value;
room ids, by contrast, are derived from the current room count (the new
room is stored under the id rendered from count plus one), so deleting
a room lets a later HOST_GAME reuse an old room id. -/
theorem client_ids_never_reused (s : ServerState) (addr : String × Nat) (now : Nat)
    (k : Nat) (hk : k < s.nextClientId) :
    (register_client s addr now).2.1 = clientIdOf s.nextClientId
    ∧ (register_client s addr now).1.nextClientId = s.nextClientId + 1
    ∧ (register_client s addr now).2.1 ≠ clientIdOf k
    ∧ (∀ cid n m, findHosted s.gameRooms cid = none →
        (lookupA (handleHostGame s cid n m).1.gameRooms
          (roomIdOf (s.gameRooms.length + 1))).isSome = true) := by
  refine ⟨rfl, rfl, ?_, ?_⟩
  · intro h
    have := clientIdOf_injective h
    omega
  · intro cid n m hnone
    simp only [handleHostGame, hnone]
    rw [lookupA_upsert_self]
    rfl

/-- Witness for amended C4: registering a fourth client in trioState
yields client_4, bumps the counter to 5, and client_4 differs from the
previously allocated client_2. -/
theorem client_ids_never_reused_witness :
    (register_client trioState ("9.9.9.9", 9) 7).2.1 = clientIdOf 4
    ∧ (register_client trioState ("9.9.9.9", 9) 7).1.nextClientId = 5
    ∧ (register_client trioState ("9.9.9.9", 9) 7).2.1 ≠ clientIdOf 2 := by
  have h := client_ids_never_reused trioState ("9.9.9.9", 9) 7 2 (by decide)
  exact ⟨h.1, h.2.1, h.2.2.1⟩

/-- Claim C2: assign_spawn_position returns the least slot index in
0..19 not occupied in the room whenever such a free slot exists (so a
client assigned while at most 20 occupy slots gets a slot held by no
one else, and the new occupant is recorded there), and returns slot 0
when all 20 slots are occupied. -/
theorem assign_spawn_position_least_free (s : ServerState) (roomId clientId : String)
    (occ : List (Nat × String))
    (hocc : (lookupA s.roomSpawnPositions roomId).getD [] = occ) :
    ((∃ i, i < trackPositions.length ∧ lookupA occ i = none) →
        lookupA occ (assign_spawn_position s roomId clientId).2.index = none
        ∧ (assign_spawn_position s roomId clientId).2.index < trackPositions.length
        ∧ (∀ j < (assign_spawn_position s roomId clientId).2.index,
            (lookupA occ j).isSome = true)
        ∧ lookupA ((lookupA (assign_spawn_position s roomId
              clientId).1.roomSpawnPositions roomId).getD [])
            (assign_spawn_position s roomId clientId).2.index = some clientId)
    ∧ ((∀ i < trackPositions.length, (lookupA occ i).isSome = true) →
        (assign_spawn_position s roomId clientId).2.index = 0) := by
  constructor
  · rintro ⟨i, hi, hfree⟩
    have hlt : findFree occ 0 < trackPositions.length := by
      by_contra hge
      have hocc_i := findFree_min occ 0 i (Nat.zero_le i) (by omega)
      rw [hfree] at hocc_i
      simp at hocc_i
    have hfree0 : lookupA occ (findFree occ 0) = none := by
      have hterm := findFree_term occ 0
      cases hcase : lookupA occ (findFree occ 0) with
      | none => rfl
      | some v => exact absurd ⟨by rw [hcase]; rfl, hlt⟩ hterm
    have hidx : (assign_spawn_position s roomId clientId).2.index = findFree occ 0 := by
      simp [assign_spawn_position, hocc, Nat.not_le.mpr hlt]
    refine ⟨by rw [hidx]; exact hfree0, by rw [hidx]; exact hlt,
      fun j hj => findFree_min occ 0 j (Nat.zero_le j) (by omega), ?_⟩
    rw [hidx]
    simp only [assign_spawn_position, hocc]
    rw [if_neg (Nat.not_le.mpr hlt)]
    rw [lookupA_upsert_self]
    simp only [Option.getD_some]
    exact lookupA_upsert_self ..
  · intro hall
    have hle : findFree occ 0 ≤ trackPositions.length :=
      findFree_le occ 0 (Nat.zero_le _)
    have heq : findFree occ 0 = trackPositions.length := by
      rcases Nat.eq_or_lt_of_le hle with h | h
      · exact h
      · exact absurd ⟨hall _ h, h⟩ (findFree_term occ 0)
    simp [assign_spawn_position, hocc, heq]

/-- Witness for C2: with only slot 0 occupied in room_1 the allocator
hands the joining client slot 1 (least free, fresh, recorded); with all
20 slots occupied it falls back to slot 0. -/
theorem assign_spawn_position_least_free_witness :
    lookupA [(0, "client_1")] (assign_spawn_position
        { trioState with roomSpawnPositions := [("room_1", [(0, "client_1")])] }
        "room_1" "client_2").2.index = none
    ∧ (assign_spawn_position
        { trioState with roomSpawnPositions := [("room_1", [(0, "client_1")])] }
        "room_1" "client_2").2.index < trackPositions.length
    ∧ lookupA ((lookupA (assign_spawn_position
          { trioState with roomSpawnPositions := [("room_1", [(0, "client_1")])] }
          "room_1" "client_2").1.roomSpawnPositions "room_1").getD [])
        (assign_spawn_position
          { trioState with roomSpawnPositions := [("room_1", [(0, "client_1")])] }
          "room_1" "client_2").2.index = some "client_2"
    ∧ (assign_spawn_position
        { trioState with roomSpawnPositions :=
            [("room_1", (List.range 20).map (fun i => (i, "client_1")))] }
        "room_1" "client_2").2.index = 0 := by
  have h1 := (assign_spawn_position_least_free
      { trioState with roomSpawnPositions := [("room_1", [(0, "client_1")])] }
      "room_1" "client_2" [(0, "client_1")] (by decide)).1
    ⟨1, by decide, by decide⟩
  have h2 := (assign_spawn_position_least_free
      { trioState with roomSpawnPositions :=
          [("room_1", (List.range 20).map (fun i => (i, "client_1")))] }
      "room_1" "client_2" ((List.range 20).map (fun i => (i, "client_1")))
      (by decide)).2 (by decide)
  exact ⟨h1.1, h1.2.1, h1.2.2.2, h2⟩

/-- Claim C3 (code bug): when the host client_1 of room_1 in trioState
issues START_GAME, every member is sent GAME_STARTED, but the room's
game_started key is still absent afterwards (so it reads as False), and
a non-host START_GAME changes nothing and sends nothing - the code
never sets the started flag the claim (and the JOIN_ROOM reader of
game_started) expects. -/
theorem start_game_flag_never_set :
    (lookupA (handleStartGame trioState "client_1" (some "room_1")).1.gameRooms "room_1").map
        Room.gameStarted = some none
    ∧ (handleStartGame trioState "client_1" (some "room_1")).2.map Prod.fst
        = ["client_1", "client_2"]
    ∧ handleStartGame trioState "client_2" (some "room_1") = (trioState, []) := by
  refine ⟨?_, ?_, ?_⟩ <;>
    simp [handleStartGame, trioState, duoRoom, startGameLoop, assign_spawn_position,
      lookupA, upsert, findFree, probeClient]

/-- trioState's client_1 with a known UDP endpoint recorded. -/
def udpClient : Client := { probeClient with udpAddr := some ("5.5.5.5", 50) }

/-- trioState with a UDP endpoint on file for client_1. -/
def udpState : ServerState :=
  { trioState with clients := [("client_1", udpClient), ("client_2", probeClient), ("client_3", probeClient)] }

/-- A datagram whose client_id names the unregistered identity ghost
and whose target_id names the registered client_1. -/
def ghostDatagram : UdpDatagram :=
  { msgType := some "GAME_DATA", clientId := some "ghost", targetId := some "client_1",
    roomId := none, data := some "p", position := none }

/-- Counterexample for C8: a datagram carrying the unregistered sender
identity ghost and a registered target is not dropped - its payload is
forwarded to client_1's UDP endpoint with from equal to ghost, although
the claim says a datagram whose client_id names no registered session
forwards no payload to any recipient. -/
theorem udp_unregistered_sender_forwarded :
    lookupA udpState.clients "ghost" = none
    ∧ (handle_udp_message udpState ghostDatagram ("6.6.6.6", 60) 42).2
      = [(("5.5.5.5", 50),
          { msgType := "GAME_DATA", fromId := "ghost", data := some "p" })] := by decide

/-- Amended C8: only a datagram whose client_id is missing or empty is
dropped outright (no state change, nothing forwarded); a datagram with
a present but unregistered client_id leaves the session map unchanged,
but its payload may still be forwarded. -/
theorem udp_drop_policy (s : ServerState) (m : UdpDatagram) (addr : String × Nat) (now : Nat) :
    (truthy m.clientId = false → handle_udp_message s m addr now = (s, []))
    ∧ (∀ cid, m.clientId = some cid → lookupA s.clients cid = none →
        (handle_udp_message s m addr now).1.clients = s.clients) := by
  constructor
  · intro h
    simp [handle_udp_message, h]
  · intro cid hcid hnone
    by_cases htr : truthy m.clientId = false
    · simp [handle_udp_message, htr]
    · rw [hcid] at htr
      simp only [handle_udp_message, hcid, if_neg htr, Option.getD_some, hnone]
      by_cases hpt : m.msgType = some "POSITION_UPDATE"
      · rw [if_pos hpt]
        cases hp : m.position with
        | some p =>
            split <;> try rfl
            all_goals try (split <;> try rfl)
            all_goals try (split <;> try rfl)
        | none =>
            split <;> try rfl
            all_goals try (split <;> try rfl)
            all_goals try (split <;> try rfl)
      · rw [if_neg hpt]
        split <;> try rfl
        all_goals try (split <;> try rfl)
        all_goals try (split <;> try rfl)

/-- Witness for amended C8: a datagram without client_id is dropped
with trioState unchanged, and a datagram from the unregistered ghost
leaves trioState's session map unchanged. -/
theorem udp_drop_policy_witness :
    handle_udp_message trioState
        { msgType := some "GAME_DATA", clientId := none, targetId := some "client_1",
          roomId := none, data := some "p", position := none } ("6.6.6.6", 60) 42
      = (trioState, [])
    ∧ (handle_udp_message trioState ghostDatagram ("6.6.6.6", 60) 42).1.clients
      = trioState.clients := by
  have h1 := (udp_drop_policy trioState
    ⟨some "GAME_DATA", none, some "client_1", none, some "p", none⟩
    ("6.6.6.6", 60) 42).1 (by decide)
  have h2 := (udp_drop_policy trioState ghostDatagram ("6.6.6.6", 60) 42).2
    "ghost" rfl (by decide)
  exact ⟨h1, h2⟩

/-- A datagram from client_1 targeting client_1 itself. -/
def selfDatagram : UdpDatagram :=
  { msgType := some "GAME_DATA", clientId := some "client_1", targetId := some "client_1",
    roomId := none, data := some "payload", position := none }

/-- Claim C10: targeted forwarding never excludes the sender - a
RELAY_MESSAGE whose target_id is the registered sender itself is
relayed back to the sender wrapped with from equal to the sender, and a
datagram whose target_id equals its own client_id is forwarded back to
the address it came from, also wrapped with from equal to the sender. -/
theorem self_target_forwarded (s : ServerState) (cid text : String)
    (roomIdOpt : Option String) (m : UdpDatagram) (addr : String × Nat) (now : Nat)
    (hreg : (lookupA s.clients cid).isSome = true)
    (htext : text ≠ "") (hcid : cid ≠ "")
    (hmcid : m.clientId = some cid) (hmtarget : m.targetId = some cid) :
    handleRelayMessage s cid roomIdOpt (some cid) (some text)
      = (s, [(cid, Msg.relay cid text)])
    ∧ (handle_udp_message s m addr now).2
      = [(addr, { msgType := "GAME_DATA", fromId := cid, data := m.data })] := by
  obtain ⟨c, hc⟩ := Option.isSome_iff_exists.mp hreg
  have hct : truthy (some cid) = true := by simp [truthy, hcid]
  constructor
  · have ht : truthy (some text) = true := by simp [truthy, htext]
    simp [handleRelayMessage, ht, hct, hc]
  · by_cases hpt : m.msgType = some "POSITION_UPDATE"
    · cases hp : m.position with
      | some p =>
          simp [handle_udp_message, hmcid, hmtarget, hct, hc, hpt, hp, lookupA_upsert_self]
      | none =>
          simp [handle_udp_message, hmcid, hmtarget, hct, hc, hpt, hp, lookupA_upsert_self]
    · simp [handle_udp_message, hmcid, hmtarget, hct, hc, hpt, lookupA_upsert_self]

/-- Witness for C10: client_1 relaying hi to itself receives the RELAY
back, and client_1's self-targeted datagram is forwarded back to the
source address of the datagram. -/
theorem self_target_forwarded_witness :
    handleRelayMessage trioState "client_1" none (some "client_1") (some "hi")
      = (trioState, [("client_1", Msg.relay "client_1" "hi")])
    ∧ (handle_udp_message trioState selfDatagram ("9.9.9.9", 77) 42).2
      = [(("9.9.9.9", 77),
          { msgType := "GAME_DATA", fromId := "client_1", data := some "payload" })] := by
  have h := self_target_forwarded trioState "client_1" "hi" none selfDatagram
    ("9.9.9.9", 77) 42 (by decide) (by decide) (by decide) rfl rfl
  exact ⟨h.1, h.2⟩

end UCR
